import Mathlib

/-!
Shallow embedding of the data-access and validation core of the
gestion_commerciale application (sidou2/database/database.py,
sidou2/utils/validators.py, sidou2/utils/error_handler.py).

Modelling conventions:
* Python numeric values (ints and floats flowing through `float(...)`) are
  modelled as rationals `ℚ`; the modelled input domain of the numeric
  validators is values for which the Python call `float(value)` succeeds.
* Row ids are `ℕ`; the Python falsy values `None`/`0` for a required id are
  both modelled as `0` (Python `not value` is true for both).
* `raise ValidationError/DatabaseError` is modelled as returning
  `Except.error` together with the post-state of the store; SQLite-level
  exceptions are a separate type `SqliteErr` that the code translates via
  the `handle_db_error` decorator.
* Each operation maps a database state `DB` to a result and a post-state.
  `conn.rollback()` (and the implicit rollback of a failed single
  statement that was never committed) is modelled by returning the
  original state on the error path.
* Error-message strings follow the source but are transliterated without
  accents and apostrophes; message text is not load-bearing.
* The `AFTER INSERT` triggers `increase_stock_on_purchase` and
  `decrease_stock_on_sale`, and the `CHECK`/`UNIQUE`/`FOREIGN KEY`
  constraints of the schema, are modelled inside the row-insert functions:
  a constraint violation aborts the statement leaving the state unchanged.
-/

/-- The two application-level failure kinds of utils/error_handler.py:
`ValidationError` and `DatabaseError`. -/
inductive AppError where
  | validationError (msg : String)
  | databaseError (msg : String)
deriving DecidableEq, Repr

/-- SQLite integrity-error causes distinguished by `handle_db_error`. -/
inductive SqliteErr where
  | uniqueViolation
  | fkViolation
  | checkViolation
deriving DecidableEq, Repr

/-- Message of the duplicate-entry translation in `handle_db_error`. -/
def duplicateEntryMsg : String := "Cette entree existe deja dans la base de donnees."

/-- Message of the referenced-elsewhere translation in `handle_db_error`. -/
def referencedElsewhereMsg : String :=
  "Impossible de supprimer cet element car il est reference ailleurs."

/-- Message of the check-constraint translation in `handle_db_error`. -/
def checkConstraintMsg : String :=
  "Les valeurs entrees ne respectent pas les contraintes de la base de donnees."

/-- The `handle_db_error` decorator of utils/error_handler.py: translates a
raw `sqlite3.IntegrityError` into a domain `DatabaseError` with a
french user-facing message chosen by the constraint kind. -/
def handle_db_error : SqliteErr → AppError
  | .uniqueViolation => .databaseError duplicateEntryMsg
  | .fkViolation => .databaseError referencedElsewhereMsg
  | .checkViolation => .databaseError checkConstraintMsg

/-- The `str(e)` detail of a raw sqlite integrity error, as it appears when
`add_sale` interpolates the caught exception into its own message. -/
def sqliteDetail : SqliteErr → String
  | .uniqueViolation => "UNIQUE constraint failed"
  | .fkViolation => "FOREIGN KEY constraint failed"
  | .checkViolation => "CHECK constraint failed"

/-- Python whitespace characters stripped by `str.strip()` and matched by
the regex class backslash-s (ASCII range). -/
def isPySpace (c : Char) : Bool :=
  c = ' ' || c = '\t' || c = '\n' || c = '\x0d' || c = '\x0b' || c = '\x0c'

/-- Python `s.strip() == ""`: the string is empty or whitespace-only. -/
def pyBlank (s : String) : Bool := s.data.all isPySpace

/-- Python `not value or value.strip() == ""` of `validate_required` on a string:
falsy (empty) or whitespace-only. -/
def pyFalsyOrBlank (p : String) : Bool := decide (p = "") || pyBlank p

/-- Function `validate_required` on an optional string value (`not value` is true for
`None` and for the empty string; then the whitespace-only check). -/
def optBlank : Option String → Bool
  | none => true
  | some s => pyFalsyOrBlank s

/-- Function `validate_numeric(value, field_name, min_value, max_value)` from
utils/validators.py, on the domain of values coercible by `float`. -/
def validate_numeric (value : ℚ) (fieldName : String)
    (minValue maxValue : Option ℚ) : Except AppError ℚ :=
  match minValue with
  | some m =>
    if value < m then
      .error (.validationError (fieldName ++ " doit etre superieur ou egal au minimum."))
    else
      match maxValue with
      | some bigM =>
        if bigM < value then
          .error (.validationError (fieldName ++ " doit etre inferieur ou egal au maximum."))
        else .ok value
      | none => .ok value
  | none =>
    match maxValue with
    | some bigM =>
      if bigM < value then
        .error (.validationError (fieldName ++ " doit etre inferieur ou egal au maximum."))
      else .ok value
    | none => .ok value

/-- Python `int(q)` on a float: truncation toward zero. -/
def ratTrunc (q : ℚ) : ℤ := if 0 ≤ q then ⌊q⌋ else -⌊-q⌋

/-- Function `validate_integer(value, field_name, min_value, max_value)` from
utils/validators.py: rejects values whose float is not integral, then
range-checks the integer. -/
def validate_integer (value : ℚ) (fieldName : String)
    (minValue maxValue : Option ℤ) : Except AppError ℤ :=
  if value ≠ (ratTrunc value : ℚ) then
    .error (.validationError (fieldName ++ " doit etre un nombre entier."))
  else
    match minValue with
    | some m =>
      if ratTrunc value < m then
        .error (.validationError (fieldName ++ " doit etre superieur ou egal au minimum."))
      else
        match maxValue with
        | some bigM =>
          if bigM < ratTrunc value then
            .error (.validationError (fieldName ++ " doit etre inferieur ou egal au maximum."))
          else .ok (ratTrunc value)
        | none => .ok (ratTrunc value)
    | none =>
      match maxValue with
      | some bigM =>
        if bigM < ratTrunc value then
          .error (.validationError (fieldName ++ " doit etre inferieur ou egal au maximum."))
        else .ok (ratTrunc value)
      | none => .ok (ratTrunc value)

/-- Characters admitted in the local part of the email regex of
`validate_email`. -/
def isEmailLocalChar (c : Char) : Bool :=
  c.isAlphanum || c = '.' || c = '_' || c = '%' || c = '+' || c = '-'

/-- Characters admitted in the domain part of the email regex. -/
def isEmailDomainChar (c : Char) : Bool := c.isAlphanum || c = '.' || c = '-'

/-- The email regex of `validate_email`: one or more local characters, one
at-sign, a nonempty domain of letters, digits, dots and hyphens, a dot,
then a top-level domain of at least two letters.  The split is taken at
the unique at-sign and at the last dot of the domain; any other split
would put a dot or an at-sign inside a letters-only segment. -/
def emailPatternOk (s : String) : Bool :=
  let cs := s.data
  ((cs.filter (fun c => c = '@')).length = 1) &&
  (let localPart := cs.takeWhile (fun c => c ≠ '@')
   let rest := (cs.dropWhile (fun c => c ≠ '@')).tail
   (localPart ≠ []) && localPart.all isEmailLocalChar &&
   (let revRest := rest.reverse
    let tldRev := revRest.takeWhile (fun c => c ≠ '.')
    match revRest.drop tldRev.length with
    | '.' :: domRev =>
      decide (2 ≤ tldRev.length) && tldRev.all Char.isAlpha &&
      (domRev ≠ []) && domRev.all isEmailDomainChar
    | _ => false))

/-- Function `validate_email(email)` from utils/validators.py: `None`, empty and
whitespace-only are valid (optional field), otherwise the regex decides. -/
def validate_email (email : Option String) : Except AppError (Option String) :=
  match email with
  | none => .ok none
  | some e =>
    if pyFalsyOrBlank e then .ok (some e)
    else if emailPatternOk e then .ok (some e)
    else .error (.validationError "Format email invalide.")

/-- Separator characters removed by `validate_phone` before matching:
the regex class of whitespace, hyphen and parentheses. -/
def isPhoneSep (c : Char) : Bool := isPySpace c || c = '-' || c = '(' || c = ')'

/-- The cleaning step of `validate_phone`. -/
def cleanPhone (p : String) : String := ⟨p.data.filter (fun c => !(isPhoneSep c))⟩

/-- The phone regex of `validate_phone` (optional leading plus sign, then 8
to 15 digits), compiled: a leading plus sign must be consumed by the
optional branch, everything else must be digits. -/
def phonePatternOk (s : String) : Bool :=
  let cs := if s.data.head? = some '+' then s.data.tail else s.data
  cs.all Char.isDigit && decide (8 ≤ cs.length) && decide (cs.length ≤ 15)

/-- Function `validate_phone(phone)` from utils/validators.py. -/
def validate_phone (phone : Option String) : Except AppError (Option String) :=
  match phone with
  | none => .ok none
  | some p =>
    if pyFalsyOrBlank p then .ok (some p)
    else if phonePatternOk (cleanPhone p) then .ok (some p)
    else .error (.validationError "Format de numero de telephone invalide.")

/-- The `if phone:` guard of `validate_customer_data`: only truthy values
are passed to `validate_phone`. -/
def checkOptPhone (phone : Option String) : Except AppError (Option String) :=
  match phone with
  | none => .ok none
  | some p => if p = "" then .ok (some p) else validate_phone (some p)

/-- The `if email:` guard of `validate_customer_data`. -/
def checkOptEmail (email : Option String) : Except AppError (Option String) :=
  match email with
  | none => .ok none
  | some e => if e = "" then .ok (some e) else validate_email (some e)

/-- Function `validate_customer_data(name, phone, email)` from utils/validators.py:
required name, then phone and email formats when present.  The validated
values it returns are the inputs unchanged. -/
def validate_customer_data (name : String) (phone email : Option String) :
    Except AppError (String × Option String × Option String) :=
  if pyFalsyOrBlank name then .error (.validationError "Nom du client est requis.")
  else
    match checkOptPhone phone with
    | .error e => .error e
    | .ok ph =>
      match checkOptEmail email with
      | .error e => .error e
      | .ok em => .ok (name, ph, em)

/-- Function `validate_product_data(name, purchase_price, selling_price, quantity)`
from utils/validators.py. -/
def validate_product_data (name : String) (purchasePrice sellingPrice : ℚ)
    (quantity : Option ℚ) : Except AppError (String × ℚ × ℚ × Option ℤ) :=
  if pyFalsyOrBlank name then .error (.validationError "Nom du produit est requis.")
  else
    match validate_numeric purchasePrice "Prix achat" (some 0) none with
    | .error e => .error e
    | .ok pp =>
      match validate_numeric sellingPrice "Prix de vente" (some 0) none with
      | .error e => .error e
      | .ok sp =>
        match quantity with
        | none => .ok (name, pp, sp, none)
        | some q =>
          match validate_integer q "Quantite" (some 0) none with
          | .error e => .error e
          | .ok n => .ok (name, pp, sp, some n)

/-- A row of the Products table (schema in `initialize_database`). -/
structure Product where
  id : ℕ
  name : String
  description : Option String
  category : Option String
  purchasePrice : ℚ
  sellingPrice : ℚ
  quantityInStock : ℚ
deriving DecidableEq, Repr

/-- A row of the Customers table. -/
structure Customer where
  id : ℕ
  name : String
  address : Option String
  phone : Option String
  email : Option String
deriving DecidableEq, Repr

/-- A row of the Purchases table. -/
structure PurchaseRow where
  id : ℕ
  productId : ℕ
  quantity : ℚ
  purchaseDate : String
  costPerUnit : ℚ
  supplier : Option String
deriving DecidableEq, Repr

/-- A row of the Sales table. -/
structure SaleRow where
  id : ℕ
  customerId : Option ℕ
  saleDate : String
  totalAmount : ℚ
deriving DecidableEq, Repr

/-- A row of the SaleItems table. -/
structure SaleItemRow where
  id : ℕ
  saleId : ℕ
  productId : ℕ
  quantity : ℚ
  priceAtSale : ℚ
deriving DecidableEq, Repr

/-- One element of the `sale_items` argument of `add_sale`: the dictionary
shape `{product_id, quantity, price_at_sale}`.  A missing or `None`
`product_id` is modelled as `0` (both are falsy for `validate_required`);
`quantity` and `price_at_sale` range over the modelled numeric domain. -/
structure SaleItemInput where
  product_id : ℕ
  quantity : ℚ
  price_at_sale : ℚ
deriving DecidableEq, Repr

/-- The persistent state: the five tables of the schema plus the
AUTOINCREMENT counters (next unused rowid of each table). -/
structure DB where
  customers : List Customer
  products : List Product
  purchases : List PurchaseRow
  sales : List SaleRow
  saleItems : List SaleItemRow
  nextCustomerId : ℕ
  nextProductId : ℕ
  nextPurchaseId : ℕ
  nextSaleId : ℕ
  nextSaleItemId : ℕ
deriving DecidableEq, Repr

/-- The state produced by `initialize_database` on a fresh file: empty
tables, AUTOINCREMENT counters at 1. -/
def freshDB : DB :=
  { customers := [], products := [], purchases := [], sales := [], saleItems := []
    nextCustomerId := 1, nextProductId := 1, nextPurchaseId := 1
    nextSaleId := 1, nextSaleItemId := 1 }

/-- Column `quantity_in_stock` of the first Products row with the given id. -/
def stockOfList : List Product → ℕ → Option ℚ
  | [], _ => none
  | p :: ps, pid => if p.id = pid then some p.quantityInStock else stockOfList ps pid

/-- Column `quantity_in_stock` of the product with the given id, `none` when no
such row exists. -/
def stockOf (db : DB) (pid : ℕ) : Option ℚ := stockOfList db.products pid

/-- The SQL `UPDATE Products SET quantity_in_stock = f(quantity_in_stock)
WHERE id = pid` performed by the two stock triggers. -/
def mapStock (l : List Product) (pid : ℕ) (f : ℚ → ℚ) : List Product :=
  l.map (fun p => if p.id = pid then { p with quantityInStock := f p.quantityInStock } else p)

/-- Total quantity of the given product across the line items of a sale. -/
def soldQty : List SaleItemInput → ℕ → ℚ
  | [], _ => 0
  | it :: rest, pid => (if it.product_id = pid then it.quantity else 0) + soldQty rest pid

/-- The quantity-times-price total of a list of line items. -/
def listTotal : List SaleItemInput → ℚ
  | [] => 0
  | it :: rest => it.quantity * it.price_at_sale + listTotal rest

/-- The `INSERT INTO Purchases` statement together with its row-level
constraints (`CHECK(quantity > 0)`, `CHECK(cost_per_unit >= 0)`, the
foreign key on product_id) and the `increase_stock_on_purchase` trigger
with the `CHECK(quantity_in_stock >= 0)` constraint on the updated rows.
A violation aborts the whole statement. -/
def insertPurchase (db : DB) (pid : ℕ) (q : ℚ) (dateStr : String) (cost : ℚ)
    (supplier : Option String) : Except SqliteErr DB :=
  if ¬ (0 < q) then .error .checkViolation
  else if ¬ (0 ≤ cost) then .error .checkViolation
  else if ¬ (∃ p ∈ db.products, p.id = pid) then .error .fkViolation
  else if ¬ (∀ p ∈ db.products, p.id = pid → 0 ≤ p.quantityInStock + q) then
    .error .checkViolation
  else
    .ok { db with
          purchases := db.purchases ++ [⟨db.nextPurchaseId, pid, q, dateStr, cost, supplier⟩]
          products := mapStock db.products pid (fun s => s + q)
          nextPurchaseId := db.nextPurchaseId + 1 }

/-- Foreign-key check of `Sales.customer_id` (NULL is exempt). -/
def custFkOk (db : DB) (cid : Option ℕ) : Prop :=
  match cid with
  | none => True
  | some c => ∃ cu ∈ db.customers, cu.id = c

instance (db : DB) (cid : Option ℕ) : Decidable (custFkOk db cid) := by
  unfold custFkOk
  cases cid <;> infer_instance

/-- The `INSERT INTO Sales` statement of `add_sale` with its
`CHECK(total_amount >= 0)` constraint and the customer foreign key;
returns `cursor.lastrowid` and the new state. -/
def insertSaleRow (db : DB) (cid : Option ℕ) (dateStr : String) (total : ℚ) :
    Except SqliteErr (ℕ × DB) :=
  if ¬ (0 ≤ total) then .error .checkViolation
  else if ¬ custFkOk db cid then .error .fkViolation
  else
    .ok (db.nextSaleId,
      { db with
        sales := db.sales ++ [⟨db.nextSaleId, cid, dateStr, total⟩]
        nextSaleId := db.nextSaleId + 1 })

/-- The `INSERT INTO SaleItems` statement with its row constraints
(`CHECK(quantity > 0)`, `CHECK(price_at_sale >= 0)`, both foreign keys)
and the `decrease_stock_on_sale` trigger: the stock decrement runs in the
same statement, and `CHECK(quantity_in_stock >= 0)` on the updated
Products rows aborts the whole statement on violation. -/
def insertSaleItem (db : DB) (saleId pid : ℕ) (q price : ℚ) : Except SqliteErr DB :=
  if ¬ (0 < q) then .error .checkViolation
  else if ¬ (0 ≤ price) then .error .checkViolation
  else if ¬ (∃ s ∈ db.sales, s.id = saleId) then .error .fkViolation
  else if ¬ (∃ p ∈ db.products, p.id = pid) then .error .fkViolation
  else if ¬ (∀ p ∈ db.products, p.id = pid → 0 ≤ p.quantityInStock - q) then
    .error .checkViolation
  else
    .ok { db with
          products := mapStock db.products pid (fun s => s - q)
          saleItems := db.saleItems ++ [⟨db.nextSaleItemId, saleId, pid, q, price⟩]
          nextSaleItemId := db.nextSaleItemId + 1 }

/-- The item-insertion loop of `add_sale`: inserts each SaleItem in order,
stopping at the first SQLite error. -/
def runSaleItems (db : DB) (saleId : ℕ) : List SaleItemInput → Except SqliteErr DB
  | [] => .ok db
  | it :: rest =>
    match insertSaleItem db saleId it.product_id it.quantity it.price_at_sale with
    | .error e => .error e
    | .ok db1 => runSaleItems db1 saleId rest

/-- Internal error type of the `add_sale` transaction body: a raw SQLite
exception or an already-typed `DatabaseError` raised inside the `try`. -/
inductive TxErr where
  | sqlite (e : SqliteErr)
  | dbFail (msg : String)
deriving DecidableEq, Repr

/-- The `except` clause of `add_sale`: after `conn.rollback()`, a
`DatabaseError` is re-raised as is and anything else is wrapped in
`DatabaseError("Sale recording failed: ...")`. -/
def wrapSaleErr : TxErr → AppError
  | .sqlite e => .databaseError ("Sale recording failed: " ++ sqliteDetail e)
  | .dbFail msg => .databaseError msg

/-- The validation-and-total loop of `add_sale`: for each item,
`validate_required` on product_id, `validate_numeric(quantity, min 1)` and
`validate_numeric(price_at_sale, min 0)`, accumulating quantity times
price. -/
def computeTotal : List SaleItemInput → Except AppError ℚ
  | [] => .ok 0
  | it :: rest =>
    if it.product_id = 0 then
      .error (.validationError "Product ID in sale item est requis.")
    else
      match validate_numeric it.quantity "Quantity in sale item" (some 1) none with
      | .error e => .error e
      | .ok q =>
        match validate_numeric it.price_at_sale "Price in sale item" (some 0) none with
        | .error e => .error e
        | .ok price =>
          match computeTotal rest with
          | .error e => .error e
          | .ok t => .ok (q * price + t)

/-- The transaction body of `add_sale`: insert the Sale row, check
`cursor.lastrowid` is truthy, then insert every SaleItem row. -/
def insertSaleTx (db : DB) (items : List SaleItemInput) (cid : Option ℕ)
    (dateStr : String) (total : ℚ) : Except TxErr (ℕ × DB) :=
  match insertSaleRow db cid dateStr total with
  | .error e => .error (.sqlite e)
  | .ok (sid, db1) =>
    if sid = 0 then .error (.dbFail "Failed to get sale_id after Sales insert.")
    else
      match runSaleItems db1 sid items with
      | .error e => .error (.sqlite e)
      | .ok db2 => .ok (sid, db2)

/-- Function `add_sale(sale_items, customer_id, sale_date_str)` from database.py.
`nowStr` is the current-time string used when no date is supplied.  On any
failure inside the transaction the state is rolled back to `db`. -/
def add_sale (db : DB) (saleItems : List SaleItemInput) (customerId : Option ℕ)
    (saleDateStr : Option String) (nowStr : String) : Except AppError ℕ × DB :=
  if saleItems = [] then
    (.error (.validationError "Cannot record a sale with no items."), db)
  else
    match computeTotal saleItems with
    | .error e => (.error e, db)
    | .ok totalAmount =>
      match validate_numeric totalAmount "Total sale amount" (some 0) none with
      | .error e => (.error e, db)
      | .ok _ =>
        match insertSaleTx db saleItems customerId (saleDateStr.getD nowStr) totalAmount with
        | .ok (sid, db2) => (.ok sid, db2)
        | .error e => (.error (wrapSaleErr e), db)

/-- Function `add_purchase(product_id, quantity, cost_per_unit, supplier,
purchase_date_str)` from database.py.  The stock increment is performed by
the `increase_stock_on_purchase` trigger inside `insertPurchase`. -/
def add_purchase (db : DB) (productId : ℕ) (quantity costPerUnit : ℚ)
    (supplier purchaseDateStr : Option String) (nowStr : String) :
    Except AppError ℕ × DB :=
  if productId = 0 then
    (.error (.validationError "Product ID for purchase est requis."), db)
  else
    match validate_numeric quantity "Purchase quantity" (some 1) none with
    | .error e => (.error e, db)
    | .ok q =>
      match validate_numeric costPerUnit "Cost per unit" (some 0) none with
      | .error e => (.error e, db)
      | .ok c =>
        match insertPurchase db productId q (purchaseDateStr.getD nowStr) c supplier with
        | .error e => (.error (handle_db_error e), db)
        | .ok db2 => (.ok db.nextPurchaseId, db2)

/-- Function `delete_customer(customer_id)` from database.py: `validate_required`,
then `DELETE FROM Customers WHERE id = ?`; the `ON DELETE SET NULL`
clause nulls the customer reference of the sales of that customer; a zero
rowcount returns `False`. -/
def delete_customer (db : DB) (customerId : ℕ) : Except AppError Bool × DB :=
  if customerId = 0 then (.error (.validationError "Customer ID est requis."), db)
  else if ¬ (∃ c ∈ db.customers, c.id = customerId) then (.ok false, db)
  else
    (.ok true,
      { db with
        customers := db.customers.filter (fun c => c.id != customerId)
        sales := db.sales.map (fun s =>
          if s.customerId = some customerId then { s with customerId := none } else s) })

/-- Function `delete_product(product_id)` from database.py: the `ON DELETE RESTRICT`
foreign key of SaleItems aborts the delete of a referenced product
(translated by `handle_db_error` into the referenced-elsewhere
`DatabaseError`); Purchases rows cascade; a zero rowcount returns
`False`. -/
def delete_product (db : DB) (productId : ℕ) : Except AppError Bool × DB :=
  if productId = 0 then (.error (.validationError "Product ID est requis."), db)
  else if (∃ p ∈ db.products, p.id = productId) ∧ (∃ si ∈ db.saleItems, si.productId = productId) then
    (.error (handle_db_error .fkViolation), db)
  else if ¬ (∃ p ∈ db.products, p.id = productId) then (.ok false, db)
  else
    (.ok true,
      { db with
        products := db.products.filter (fun p => p.id != productId)
        purchases := db.purchases.filter (fun pu => pu.productId != productId) })

/-- Function `update_customer(customer_id, name, phone, email, address)` from
database.py: validation, then `UPDATE Customers SET name, address, phone,
email WHERE id = ?`; a unique-constraint collision on phone or email
aborts the statement; a zero rowcount raises `DatabaseError`.
`update_customer_apply` is the post-validation part of `update_customer`. -/
def update_customer_apply (db : DB) (customerId : ℕ) (n : String)
    (ph em address : Option String) : Except AppError Bool × DB :=
  if (∃ c ∈ db.customers, c.id = customerId) ∧
      (∃ c ∈ db.customers, c.id ≠ customerId ∧
        ((ph ≠ none ∧ c.phone = ph) ∨ (em ≠ none ∧ c.email = em))) then
    (.error (handle_db_error .uniqueViolation), db)
  else if ¬ (∃ c ∈ db.customers, c.id = customerId) then
    (.error (.databaseError ("Customer with ID " ++ toString customerId ++ " not found for update.")), db)
  else
    (.ok true,
      { db with
        customers := db.customers.map (fun c =>
          if c.id = customerId then
            { c with name := n, address := address, phone := ph, email := em }
          else c) })

def update_customer (db : DB) (customerId : ℕ) (name : String)
    (phone email address : Option String) : Except AppError Bool × DB :=
  if customerId = 0 then (.error (.validationError "Customer ID est requis."), db)
  else
    match validate_customer_data name phone email with
    | .error e => (.error e, db)
    | .ok (n, ph, em) => update_customer_apply db customerId n ph em address

/-- Function `update_product(product_id, name, description, category, purchase_price,
selling_price)` from database.py: validation with `quantity=None` (stock is
not updated by this function), required category, then `UPDATE Products SET
name, description, category, purchase_price, selling_price WHERE id = ?`;
a unique-name collision aborts the statement; row-level `CHECK`
constraints apply to the updated rows; a zero rowcount raises
`DatabaseError`.
`update_product_apply` is the post-validation part of `update_product`. -/
def update_product_apply (db : DB) (productId : ℕ) (n : String)
    (description category : Option String) (pp sp : ℚ) :
    Except AppError Bool × DB :=
  if optBlank category then (.error (.validationError "Product category est requis."), db)
  else if (∃ p ∈ db.products, p.id = productId) ∧
      (∃ p ∈ db.products, p.id ≠ productId ∧ p.name = n) then
    (.error (handle_db_error .uniqueViolation), db)
  else if ¬ (∀ p ∈ db.products, p.id = productId → 0 ≤ pp ∧ 0 ≤ sp) then
    (.error (handle_db_error .checkViolation), db)
  else if ¬ (∃ p ∈ db.products, p.id = productId) then
    (.error (.databaseError ("Product with ID " ++ toString productId ++ " not found for update.")), db)
  else
    (.ok true,
      { db with
        products := db.products.map (fun p =>
          if p.id = productId then
            { p with name := n, description := description, category := category,
                     purchasePrice := pp, sellingPrice := sp }
          else p) })

def update_product (db : DB) (productId : ℕ) (name : String)
    (description category : Option String) (purchasePrice sellingPrice : ℚ) :
    Except AppError Bool × DB :=
  if productId = 0 then (.error (.validationError "Product ID est requis."), db)
  else
    match validate_product_data name purchasePrice sellingPrice none with
    | .error e => (.error e, db)
    | .ok (n, pp, sp, _) =>
      update_product_apply db productId n description category pp sp

/-- The dictionary returned by `get_product_details_for_sale`. -/
structure ProductDetails where
  name : String
  price : ℚ
  stock : ℚ
deriving DecidableEq, Repr

/-- Function `get_product_details_for_sale(product_id)` from database.py.  The
boolean of the pair records whether the connection acquired at the start
of the call has been released when the call returns.  `queryFails` injects
a `sqlite3.Error` raised by the SELECT (for example a locked or corrupted
database file): that path is caught by the `except` clause, which returns
`None` without ever reaching the `conn.close()` line. -/
def get_product_details_for_sale (db : DB) (productId : ℕ) (queryFails : Bool) :
    Option ProductDetails × Bool :=
  if queryFails then (none, false)
  else
    match db.products.find? (fun p => p.id == productId) with
    | some p => (some ⟨p.name, p.sellingPrice, p.quantityInStock⟩, true)
    | none => (none, true)

/-- Function `dangerously_delete_all_data()` from database.py: closes its connection,
removes the database file and re-creates the schema from scratch.
`removeFails` injects an `OSError` from `os.remove`; the connection was
already closed before that point, so the boolean (connection released on
return) is true on every path. -/
def dangerously_delete_all_data (db : DB) (removeFails : Bool) :
    (Except AppError Bool × DB) × Bool :=
  if removeFails then ((.error (.databaseError "Failed to delete all data: OSError"), db), true)
  else ((.ok true, freshDB), true)

/-- The phone format in the words of the specification: an optional leading
plus sign followed by 8 to 15 digits.  Stated independently of
`phonePatternOk` (which is the compiled regex of the source) so the two
can be compared. -/
def specPhoneOk (s : String) : Prop :=
  ∃ core : List Char, (s.data = core ∨ s.data = '+' :: core) ∧
    (∀ c ∈ core, c.isDigit = true) ∧ 8 ≤ core.length ∧ core.length ≤ 15

/-- A store holding one product (id 1) with one unit in stock. -/
def dbStock1 : DB :=
  { freshDB with products := [⟨1, "Widget", none, some "Cat", 5, 10, 1⟩], nextProductId := 2 }

/-- A store holding one product (id 1) with ten units in stock. -/
def dbStock10 : DB :=
  { freshDB with products := [⟨1, "Widget", none, some "Cat", 5, 10, 10⟩], nextProductId := 2 }

/-- A store holding one product (id 1) with zero units in stock. -/
def dbStock0 : DB :=
  { freshDB with products := [⟨1, "Widget", none, some "Cat", 5, 10, 0⟩], nextProductId := 2 }

/-- A store where product 1 is referenced by a SaleItem row. -/
def dbWithSaleItem : DB :=
  { freshDB with
    products := [⟨1, "Widget", none, some "Cat", 5, 10, 5⟩]
    sales := [⟨1, none, "2024-01-01 00:00:00", 50⟩]
    saleItems := [⟨1, 1, 1, 5, 10⟩]
    nextProductId := 2, nextSaleId := 2, nextSaleItemId := 2 }

/-- A store with one customer (id 1) and one product (id 1). -/
def dbCust : DB :=
  { freshDB with
    customers := [⟨1, "Alice", none, none, none⟩]
    products := [⟨1, "Widget", none, some "Cat", 5, 10, 5⟩]
    nextCustomerId := 2, nextProductId := 2 }

/-- The state after a concrete successful purchase of 20 units on
`dbStock10`. -/
def dbAfterPurchase : DB :=
  (add_purchase dbStock10 1 20 5 none none "2024-01-01 00:00:00").2

/-- The state after a concrete successful two-unit sale on `dbStock10`. -/
def dbAfterSale : DB :=
  (add_sale dbStock10 [⟨1, 2, 10⟩] none none "2024-01-01 00:00:00").2

/-- The state after a concrete successful `update_product` on `dbStock10`. -/
def dbAfterUpdate : DB :=
  (update_product dbStock10 1 "Gadget" none (some "Cat2") 4 9).2

lemma stockOfList_mapStock (l : List Product) (pid : ℕ) (f : ℚ → ℚ) (x : ℕ) :
    stockOfList (mapStock l pid f) x =
      (stockOfList l x).map (fun s => if x = pid then f s else s) := by
  induction l with
  | nil => rfl
  | cons p ps ih =>
    by_cases hpp : p.id = pid
    · by_cases hpx : p.id = x
      · have hx : x = pid := hpx ▸ hpp
        simp [mapStock, stockOfList, hpp, hpx, hx]
      · have hnx : ¬ pid = x := fun hcon => hpx (hpp.trans hcon)
        simp only [mapStock, List.map_cons] at ih ⊢
        simp [stockOfList, hpp, hpx, hnx, ih]
    · by_cases hpx : p.id = x
      · have hx : ¬ x = pid := fun hcon => hpp (hpx.trans hcon)
        simp [mapStock, stockOfList, hpp, hpx, hx]
      · simp only [mapStock, List.map_cons] at ih ⊢
        simp [stockOfList, hpp, hpx, ih]

lemma stockOfList_mem {l : List Product} {pid : ℕ} {s : ℚ}
    (h : stockOfList l pid = some s) :
    ∃ p ∈ l, p.id = pid ∧ p.quantityInStock = s := by
  induction l with
  | nil => simp [stockOfList] at h
  | cons p ps ih =>
    simp only [stockOfList] at h
    by_cases hp : p.id = pid
    · rw [if_pos hp] at h
      exact ⟨p, List.mem_cons_self p ps, hp, (Option.some.inj h)⟩
    · rw [if_neg hp] at h
      obtain ⟨q, hq, h1, h2⟩ := ih h
      exact ⟨q, List.mem_cons_of_mem _ hq, h1, h2⟩

lemma insertSaleItem_ok {db : DB} {saleId pid : ℕ} {q price : ℚ} {db1 : DB}
    (h : insertSaleItem db saleId pid q price = .ok db1) :
    db1.products = mapStock db.products pid (fun s => s - q) ∧
    db1.sales = db.sales ∧
    db1.customers = db.customers ∧
    db1.purchases = db.purchases ∧
    (∀ p ∈ db.products, p.id = pid → 0 ≤ p.quantityInStock - q) := by
  unfold insertSaleItem at h
  split_ifs at h with h1 h2 h3 h4 h5
  injection h with h
  subst h
  exact ⟨rfl, rfl, rfl, rfl, h5⟩

lemma insertSaleRow_ok {db : DB} {cid : Option ℕ} {dateStr : String} {total : ℚ}
    {sid : ℕ} {db1 : DB}
    (h : insertSaleRow db cid dateStr total = .ok (sid, db1)) :
    sid = db.nextSaleId ∧
    db1.products = db.products ∧
    db1.sales = db.sales ++ [⟨db.nextSaleId, cid, dateStr, total⟩] := by
  unfold insertSaleRow at h
  split_ifs at h with h1 h2
  simp only [Except.ok.injEq, Prod.mk.injEq] at h
  obtain ⟨hsid, hdb⟩ := h
  subst hdb
  exact ⟨hsid.symm, rfl, rfl⟩

lemma runSaleItems_ok_stock {items : List SaleItemInput} {db : DB} {saleId : ℕ} {db2 : DB}
    (h : runSaleItems db saleId items = .ok db2) (x : ℕ) :
    stockOf db2 x = (stockOf db x).map (fun s => s - soldQty items x) := by
  induction items generalizing db with
  | nil =>
    simp only [runSaleItems] at h
    injection h with h
    subst h
    cases hs : stockOf db x <;> simp [soldQty, hs]
  | cons it rest ih =>
    simp only [runSaleItems] at h
    cases hi : insertSaleItem db saleId it.product_id it.quantity it.price_at_sale with
    | error e => rw [hi] at h; exact (Except.noConfusion h)
    | ok db1 =>
      rw [hi] at h
      obtain ⟨hprod, -, -, -, -⟩ := insertSaleItem_ok hi
      have hmid : stockOf db1 x =
          (stockOf db x).map (fun s => if x = it.product_id then s - it.quantity else s) := by
        unfold stockOf
        rw [hprod]
        exact stockOfList_mapStock db.products it.product_id _ x
      rw [ih h, hmid]
      cases hs : stockOf db x with
      | none => simp
      | some s =>
        by_cases hx : x = it.product_id
        · simp [soldQty, hx, sub_sub]
        · have hx2 : ¬ it.product_id = x := fun hcon => hx hcon.symm
          simp [soldQty, hx, hx2]

lemma runSaleItems_ok_no_oversell {items : List SaleItemInput} {db : DB} {saleId : ℕ}
    {db2 : DB} (h : runSaleItems db saleId items = .ok db2) :
    ∀ x s, stockOf db x = some s → 0 ≤ s → soldQty items x ≤ s := by
  induction items generalizing db with
  | nil =>
    intro x s _ hs0
    simpa [soldQty] using hs0
  | cons it rest ih =>
    intro x s hs hs0
    simp only [runSaleItems] at h
    cases hi : insertSaleItem db saleId it.product_id it.quantity it.price_at_sale with
    | error e => rw [hi] at h; exact (Except.noConfusion h)
    | ok db1 =>
      rw [hi] at h
      obtain ⟨hprod, -, -, -, hcheck⟩ := insertSaleItem_ok hi
      have hmid : stockOf db1 x =
          (stockOf db x).map (fun s => if x = it.product_id then s - it.quantity else s) := by
        unfold stockOf
        rw [hprod]
        exact stockOfList_mapStock db.products it.product_id _ x
      by_cases hx : x = it.product_id
      · obtain ⟨p, hpmem, hpid, hpstock⟩ := stockOfList_mem hs
        have hq : 0 ≤ s - it.quantity := by
          have := hcheck p hpmem (hpid.trans hx)
          rw [hpstock] at this
          exact this
        have hs1 : stockOf db1 x = some (s - it.quantity) := by
          rw [hmid, hs]
          simp [hx]
        have hrest := ih h x (s - it.quantity) hs1 hq
        simp only [soldQty]
        rw [if_pos hx.symm]
        linarith
      · have hs1 : stockOf db1 x = some s := by
          rw [hmid, hs]
          simp [hx]
        have hrest := ih h x s hs1 hs0
        simp only [soldQty]
        rw [if_neg (fun hcon => hx hcon.symm)]
        linarith

lemma runSaleItems_ok_sales {items : List SaleItemInput} {db : DB} {saleId : ℕ} {db2 : DB}
    (h : runSaleItems db saleId items = .ok db2) : db2.sales = db.sales := by
  induction items generalizing db with
  | nil =>
    simp only [runSaleItems] at h
    injection h with h
    subst h
    rfl
  | cons it rest ih =>
    simp only [runSaleItems] at h
    cases hi : insertSaleItem db saleId it.product_id it.quantity it.price_at_sale with
    | error e => rw [hi] at h; exact (Except.noConfusion h)
    | ok db1 =>
      rw [hi] at h
      obtain ⟨-, hsales, -, -, -⟩ := insertSaleItem_ok hi
      rw [ih h, hsales]

lemma insertSaleTx_ok {db : DB} {items : List SaleItemInput} {cid : Option ℕ}
    {dateStr : String} {total : ℚ} {sid : ℕ} {db2 : DB}
    (h : insertSaleTx db items cid dateStr total = .ok (sid, db2)) :
    ∃ db1, insertSaleRow db cid dateStr total = .ok (sid, db1) ∧ sid ≠ 0 ∧
      runSaleItems db1 sid items = .ok db2 := by
  unfold insertSaleTx at h
  cases hr : insertSaleRow db cid dateStr total with
  | error e => rw [hr] at h; exact (Except.noConfusion h)
  | ok p =>
    obtain ⟨sid1, db1⟩ := p
    simp only [hr] at h
    split_ifs at h with h0
    cases hi : runSaleItems db1 sid1 items with
    | error e => rw [hi] at h; exact (Except.noConfusion h)
    | ok dbx =>
      rw [hi] at h
      simp only [Except.ok.injEq, Prod.mk.injEq] at h
      obtain ⟨hsid, hdb⟩ := h
      subst hsid
      subst hdb
      exact ⟨db1, rfl, h0, hi⟩

lemma validate_numeric_min (v m : ℚ) (fieldName : String) :
    validate_numeric v fieldName (some m) none =
      if v < m then
        .error (.validationError (fieldName ++ " doit etre superieur ou egal au minimum."))
      else .ok v := rfl

lemma computeTotal_ok_total {items : List SaleItemInput} {t : ℚ}
    (h : computeTotal items = .ok t) : t = listTotal items := by
  induction items generalizing t with
  | nil =>
    simp only [computeTotal, Except.ok.injEq] at h
    simp [listTotal, ← h]
  | cons it rest ih =>
    simp only [computeTotal, validate_numeric_min] at h
    split_ifs at h with h1 h2 h3
    cases hr : computeTotal rest with
    | error e => rw [hr] at h; exact (Except.noConfusion h)
    | ok t1 =>
      rw [hr] at h
      simp only [Except.ok.injEq] at h
      rw [listTotal, ← ih hr, ← h]

lemma computeTotal_ok_of_valid {items : List SaleItemInput}
    (h : ∀ it ∈ items, it.product_id ≠ 0 ∧ 1 ≤ it.quantity ∧ 0 ≤ it.price_at_sale) :
    computeTotal items = .ok (listTotal items) := by
  induction items with
  | nil => rfl
  | cons it rest ih =>
    obtain ⟨h1, h2, h3⟩ := h it (List.mem_cons_self it rest)
    have hrest := ih (fun x hx => h x (List.mem_cons_of_mem _ hx))
    simp [computeTotal, validate_numeric_min, h1, not_lt.mpr h2, not_lt.mpr h3, hrest,
      listTotal]

lemma listTotal_nonneg {items : List SaleItemInput}
    (h : ∀ it ∈ items, it.product_id ≠ 0 ∧ 1 ≤ it.quantity ∧ 0 ≤ it.price_at_sale) :
    0 ≤ listTotal items := by
  induction items with
  | nil => simp [listTotal]
  | cons it rest ih =>
    obtain ⟨-, h2, h3⟩ := h it (List.mem_cons_self it rest)
    have hrest := ih (fun x hx => h x (List.mem_cons_of_mem _ hx))
    have : 0 ≤ it.quantity * it.price_at_sale :=
      mul_nonneg (le_trans zero_le_one h2) h3
    simp only [listTotal]
    linarith

lemma insertPurchase_ok {db : DB} {pid : ℕ} {q : ℚ} {dateStr : String} {cost : ℚ}
    {supplier : Option String} {db2 : DB}
    (h : insertPurchase db pid q dateStr cost supplier = .ok db2) :
    db2.products = mapStock db.products pid (fun s => s + q) ∧
    db2.purchases = db.purchases ++ [⟨db.nextPurchaseId, pid, q, dateStr, cost, supplier⟩] := by
  unfold insertPurchase at h
  split_ifs at h with h1 h2 h3 h4
  injection h with h
  subst h
  exact ⟨rfl, rfl⟩

lemma pyFalsyOrBlank_eq (p : String) : pyFalsyOrBlank p = pyBlank p := by
  unfold pyFalsyOrBlank
  by_cases h : p = ""
  · subst h
    rfl
  · simp [h]

lemma phonePatternOk_iff (s : String) : phonePatternOk s = true ↔ specPhoneOk s := by
  unfold phonePatternOk specPhoneOk
  by_cases hp : s.data.head? = some '+'
  · rw [if_pos hp]
    obtain ⟨rest, hrest⟩ : ∃ rest, s.data = '+' :: rest := by
      rcases hcs : s.data with _ | ⟨c, r⟩
      · rw [hcs] at hp
        simp at hp
      · rw [hcs] at hp
        simp only [List.head?_cons, Option.some.injEq] at hp
        exact ⟨r, by rw [hp]⟩
    rw [hrest]
    simp only [List.tail_cons, List.all_eq_true, Bool.and_eq_true, decide_eq_true_eq]
    constructor
    · rintro ⟨⟨hdig, h8⟩, h15⟩
      exact ⟨rest, Or.inr rfl, hdig, h8, h15⟩
    · rintro ⟨core, hc | hc, hdig, h8, h15⟩
      · subst hc
        exact absurd (hdig '+' (List.mem_cons_self _ _)) (by decide)
      · injection hc with hc1 hc2
        subst hc2
        exact ⟨⟨hdig, h8⟩, h15⟩
  · rw [if_neg hp]
    simp only [List.all_eq_true, Bool.and_eq_true, decide_eq_true_eq]
    constructor
    · rintro ⟨⟨hdig, h8⟩, h15⟩
      exact ⟨s.data, Or.inl rfl, hdig, h8, h15⟩
    · rintro ⟨core, hc | hc, hdig, h8, h15⟩
      · subst hc
        exact ⟨⟨hdig, h8⟩, h15⟩
      · rw [hc] at hp
        simp at hp

lemma validate_product_data_none_eq (name : String) (a b : ℚ) :
    validate_product_data name a b none =
      if pyFalsyOrBlank name then .error (.validationError "Nom du produit est requis.")
      else if a < 0 then
        .error (.validationError "Prix achat doit etre superieur ou egal au minimum.")
      else if b < 0 then
        .error (.validationError "Prix de vente doit etre superieur ou egal au minimum.")
      else .ok (name, a, b, none) := by
  by_cases h1 : pyFalsyOrBlank name
  · simp [validate_product_data, h1]
  · by_cases h2 : a < 0
    · simp [validate_product_data, validate_numeric_min, h1, h2]
    · by_cases h3 : b < 0
      · simp [validate_product_data, validate_numeric_min, h1, h2, h3]
      · simp [validate_product_data, validate_numeric_min, h1, h2, h3]

lemma stockOfList_map_same (l : List Product) (f : Product → Product)
    (hid : ∀ p, (f p).id = p.id)
    (hst : ∀ p, (f p).quantityInStock = p.quantityInStock) (x : ℕ) :
    stockOfList (l.map f) x = stockOfList l x := by
  induction l with
  | nil => rfl
  | cons p ps ih =>
    simp only [List.map_cons, stockOfList, hid, hst, ih]

lemma add_purchase_ok_elim {db : DB} {pid : ℕ} {q c : ℚ} {sup d : Option String}
    {nowStr : String} {k : ℕ} {db2 : DB}
    (h : add_purchase db pid q c sup d nowStr = (.ok k, db2)) :
    insertPurchase db pid q (Option.getD d nowStr) c sup = .ok db2 ∧
      k = db.nextPurchaseId := by
  unfold add_purchase at h
  split_ifs at h with h1
  · simp at h
  · split at h
    · simp at h
    · rename_i q2 hq2
      have hq2e : q2 = q := by
        rw [validate_numeric_min] at hq2
        split_ifs at hq2
        exact (Except.ok.inj hq2).symm
      subst hq2e
      split at h
      · simp at h
      · rename_i c2 hc2
        have hc2e : c2 = c := by
          rw [validate_numeric_min] at hc2
          split_ifs at hc2
          exact (Except.ok.inj hc2).symm
        subst hc2e
        split at h
        · simp at h
        · rename_i dbp hdbp
          simp only [Prod.mk.injEq, Except.ok.injEq] at h
          obtain ⟨hk, hdb⟩ := h
          subst hdb
          exact ⟨hdbp, hk.symm⟩

lemma add_sale_ok_elim {db : DB} {items : List SaleItemInput} {cid : Option ℕ}
    {dstr : Option String} {nowStr : String} {sid : ℕ} {db2 : DB}
    (h : add_sale db items cid dstr nowStr = (.ok sid, db2)) :
    ∃ t db1, computeTotal items = .ok t ∧
      insertSaleRow db cid (Option.getD dstr nowStr) t = .ok (sid, db1) ∧
      runSaleItems db1 sid items = .ok db2 := by
  unfold add_sale at h
  split_ifs at h with h1
  · simp at h
  · split at h
    · simp at h
    · rename_i t ht
      split at h
      · simp at h
      · rename_i t2 ht2
        split at h
        · rename_i p hp
          obtain ⟨sid2, dbx⟩ := p
          simp only [Prod.mk.injEq, Except.ok.injEq] at h
          obtain ⟨hsid, hdb⟩ := h
          subst hsid
          subst hdb
          obtain ⟨db1, hrow, -, hrun⟩ := insertSaleTx_ok hp
          exact ⟨t, db1, ht, hrow, hrun⟩
        · simp at h

/-- Claim C1: a call to `add_sale` whose items pass validation but where
inserting some SaleItem would drive the stock of the referenced product below
zero returns a persistence failure (`DatabaseError`) and leaves the store
exactly as before the call: zero Sale rows and zero SaleItem rows from the
call are persisted and the stock of every product is unchanged. -/
theorem add_sale_oversell_full_rollback
    (db : DB) (items : List SaleItemInput) (cid : Option ℕ)
    (dstr : Option String) (nowStr : String)
    (hne : items ≠ [])
    (hval : ∀ it ∈ items, it.product_id ≠ 0 ∧ 1 ≤ it.quantity ∧ 0 ≤ it.price_at_sale)
    (pid : ℕ) (s : ℚ) (hstock : stockOf db pid = some s) (hs0 : 0 ≤ s)
    (hover : s < soldQty items pid) :
    ∃ msg, add_sale db items cid dstr nowStr = (.error (.databaseError msg), db) := by
  unfold add_sale
  rw [if_neg hne, computeTotal_ok_of_valid hval]
  have h0 : ¬ listTotal items < 0 := not_lt.mpr (listTotal_nonneg hval)
  simp only [validate_numeric_min, if_neg h0]
  cases htx : insertSaleTx db items cid (Option.getD dstr nowStr) (listTotal items) with
  | ok p =>
    exfalso
    obtain ⟨sid, db2⟩ := p
    obtain ⟨db1, hrow, -, hrun⟩ := insertSaleTx_ok htx
    obtain ⟨-, hprod, -⟩ := insertSaleRow_ok hrow
    have hstock1 : stockOf db1 pid = some s := by
      unfold stockOf
      rw [hprod]
      exact hstock
    have hle := runSaleItems_ok_no_oversell hrun pid s hstock1 hs0
    exact absurd hover (not_lt.mpr hle)
  | error e =>
    cases e with
    | sqlite e1 => exact ⟨"Sale recording failed: " ++ sqliteDetail e1, rfl⟩
    | dbFail m => exact ⟨m, rfl⟩

/-- Witness for C1: on a store with one unit of product 1 in stock, a sale
of two units fails with a `DatabaseError` and the store is unchanged. -/
theorem add_sale_oversell_full_rollback_witness :
    ∃ msg, add_sale dbStock1 [⟨1, 2, 10⟩] none none "2024-01-01 00:00:00" =
      (.error (.databaseError msg), dbStock1) :=
  add_sale_oversell_full_rollback dbStock1 [⟨1, 2, 10⟩] none none "2024-01-01 00:00:00"
    (by simp) (by norm_num) 1 1 rfl (by norm_num) (by norm_num [soldQty])

/-- Claim C2: a successful `add_sale` persists exactly one Sale row whose
`total_amount` is the application-computed sum of quantity times
price-at-sale over the line items of the caller (`add_sale` accepts no
caller-supplied total). -/
theorem add_sale_persists_computed_total
    {db : DB} {items : List SaleItemInput} {cid : Option ℕ} {dstr : Option String}
    {nowStr : String} {sid : ℕ} {db2 : DB}
    (h : add_sale db items cid dstr nowStr = (.ok sid, db2)) :
    db2.sales = db.sales ++ [⟨sid, cid, Option.getD dstr nowStr, listTotal items⟩] := by
  obtain ⟨t, db1, ht, hrow, hrun⟩ := add_sale_ok_elim h
  obtain ⟨hsid, -, hsales⟩ := insertSaleRow_ok hrow
  rw [runSaleItems_ok_sales hrun, hsales, ← hsid, computeTotal_ok_total ht]

/-- Witness for C2: a concrete successful sale of two units at price 10
appends the Sale row with total 20. -/
theorem add_sale_persists_computed_total_witness :
    dbAfterSale.sales = dbStock10.sales ++
      [⟨1, none, Option.getD none "2024-01-01 00:00:00", listTotal [⟨1, 2, 10⟩]⟩] :=
  @add_sale_persists_computed_total dbStock10 [⟨1, 2, 10⟩] none none
    "2024-01-01 00:00:00" 1 dbAfterSale
    (by
      have h1 : (add_sale dbStock10 [⟨1, 2, 10⟩] none none "2024-01-01 00:00:00").1 =
          .ok 1 := by
        norm_num [add_sale, computeTotal, validate_numeric_min, insertSaleTx,
          insertSaleRow, runSaleItems, insertSaleItem, custFkOk, dbStock10, freshDB,
          mapStock]
      rw [← @Prod.mk.eta _ _
        (add_sale dbStock10 [⟨1, 2, 10⟩] none none "2024-01-01 00:00:00"), h1]
      rfl)

/-- Claim C3: a successful `add_purchase` raises the stock of the referenced
product by exactly the purchase quantity (all other stocks unchanged), and a
successful `add_sale` lowers the stock of each product by exactly the summed
quantity of that product across the line items of the sale. -/
theorem purchase_and_sale_stock_deltas :
    (∀ (db : DB) (pid : ℕ) (q c : ℚ) (sup d : Option String) (nowStr : String)
        (k : ℕ) (db2 : DB), add_purchase db pid q c sup d nowStr = (.ok k, db2) →
        ∀ x, stockOf db2 x = (stockOf db x).map (fun s => if x = pid then s + q else s)) ∧
    (∀ (db : DB) (items : List SaleItemInput) (cid : Option ℕ) (dstr : Option String)
        (nowStr : String) (sid : ℕ) (db2 : DB),
        add_sale db items cid dstr nowStr = (.ok sid, db2) →
        ∀ x, stockOf db2 x = (stockOf db x).map (fun s => s - soldQty items x)) := by
  constructor
  · intro db pid q c sup d nowStr k db2 h x
    obtain ⟨hins, -⟩ := add_purchase_ok_elim h
    obtain ⟨hprod, -⟩ := insertPurchase_ok hins
    unfold stockOf
    rw [hprod]
    exact stockOfList_mapStock db.products pid _ x
  · intro db items cid dstr nowStr sid db2 h x
    obtain ⟨t, db1, -, hrow, hrun⟩ := add_sale_ok_elim h
    obtain ⟨-, hprod, -⟩ := insertSaleRow_ok hrow
    have hmid : stockOf db1 x = stockOf db x := by
      unfold stockOf
      rw [hprod]
    rw [runSaleItems_ok_stock hrun x, hmid]

/-- Witness for C3: on `dbStock10` (stock 10), buying 20 units yields stock
30 and selling 2 units yields stock 8. -/
theorem purchase_and_sale_stock_deltas_witness :
    stockOf dbAfterPurchase 1 =
      (stockOf dbStock10 1).map (fun s => if 1 = 1 then s + 20 else s) ∧
    stockOf dbAfterSale 1 =
      (stockOf dbStock10 1).map (fun s => s - soldQty [⟨1, 2, 10⟩] 1) :=
  ⟨purchase_and_sale_stock_deltas.1 dbStock10 1 20 5 none none "2024-01-01 00:00:00"
      1 dbAfterPurchase
      (by
        have h1 : (add_purchase dbStock10 1 20 5 none none "2024-01-01 00:00:00").1 =
            .ok 1 := by
          norm_num [add_purchase, validate_numeric_min, insertPurchase, dbStock10,
            freshDB, mapStock]
        rw [← @Prod.mk.eta _ _
          (add_purchase dbStock10 1 20 5 none none "2024-01-01 00:00:00"), h1]
        rfl) 1,
    purchase_and_sale_stock_deltas.2 dbStock10 [⟨1, 2, 10⟩] none none
      "2024-01-01 00:00:00" 1 dbAfterSale
      (by
        have h1 : (add_sale dbStock10 [⟨1, 2, 10⟩] none none "2024-01-01 00:00:00").1 =
            .ok 1 := by
          norm_num [add_sale, computeTotal, validate_numeric_min, insertSaleTx,
            insertSaleRow, runSaleItems, insertSaleItem, custFkOk, dbStock10, freshDB,
            mapStock]
        rw [← @Prod.mk.eta _ _
          (add_sale dbStock10 [⟨1, 2, 10⟩] none none "2024-01-01 00:00:00"), h1]
        rfl) 1⟩

/-- Claim C4: `add_sale` with an empty item list always fails with a
`ValidationError` before any write and leaves the store unchanged (no Sale
row, no SaleItem row, no stock change). -/
theorem add_sale_empty_items_fails (db : DB) (cid : Option ℕ)
    (dstr : Option String) (nowStr : String) :
    add_sale db [] cid dstr nowStr =
      (.error (.validationError "Cannot record a sale with no items."), db) := rfl

/-- Counterexample to C5 as stated: the quantity 5/2 is not an integral
number, yet `add_purchase` accepts it (its quantity check is
`validate_numeric(min 1)`, not `validate_integer`), persists the Purchases
row and leaves the product with a fractional stock of 5/2. -/
theorem add_purchase_fractional_quantity_accepted :
    ((5 : ℚ) / 2 ≠ ((ratTrunc ((5 : ℚ) / 2) : ℤ) : ℚ)) ∧
    (1 : ℚ) ≤ (5 : ℚ) / 2 ∧
    (add_purchase dbStock0 1 ((5 : ℚ) / 2) 1 none none "2024-01-01 00:00:00").1 =
      .ok 1 ∧
    (add_purchase dbStock0 1 ((5 : ℚ) / 2) 1 none none "2024-01-01 00:00:00").2.purchases =
      [⟨1, 1, (5 : ℚ) / 2, "2024-01-01 00:00:00", 1, none⟩] ∧
    stockOf (add_purchase dbStock0 1 ((5 : ℚ) / 2) 1 none none "2024-01-01 00:00:00").2 1 =
      some ((5 : ℚ) / 2) := by
  refine ⟨?_, ?_, ?_, ?_, ?_⟩
  · norm_num [ratTrunc]
  · norm_num
  · norm_num [add_purchase, validate_numeric_min, insertPurchase, dbStock0, freshDB,
      mapStock]
  · norm_num [add_purchase, validate_numeric_min, insertPurchase, dbStock0, freshDB,
      mapStock]
  · norm_num [add_purchase, validate_numeric_min, insertPurchase, dbStock0, freshDB,
      mapStock, stockOf, stockOfList]

/-- Claim C5 amended: `add_purchase` validates its quantity as a numeric
value of at least 1 before any write: any quantity below 1 fails with a
`ValidationError` and nothing is persisted (the store is unchanged);
fractional quantities of at least 1 pass validation. -/
theorem add_purchase_rejects_quantity_below_one
    (db : DB) (pid : ℕ) (q c : ℚ) (sup d : Option String) (nowStr : String)
    (hq : q < 1) :
    ∃ m, add_purchase db pid q c sup d nowStr = (.error (.validationError m), db) := by
  unfold add_purchase
  by_cases hp : pid = 0
  · rw [if_pos hp]
    exact ⟨_, rfl⟩
  · rw [if_neg hp, validate_numeric_min, if_pos hq]
    exact ⟨_, rfl⟩

/-- Witness for C5 amended: a purchase of quantity 0 fails validation and
changes nothing. -/
theorem add_purchase_rejects_quantity_below_one_witness :
    ∃ m, add_purchase dbStock0 1 0 1 none none "2024-01-01 00:00:00" =
      (.error (.validationError m), dbStock0) :=
  add_purchase_rejects_quantity_below_one dbStock0 1 0 1 none none
    "2024-01-01 00:00:00" (by norm_num)

/-- Claim C6: deleting a product referenced by at least one SaleItem row
fails with the translated referenced-elsewhere `DatabaseError` (not a raw
storage-engine error) and leaves the store, in particular the product row,
unchanged. -/
theorem delete_product_referenced_fails
    (db : DB) (pid : ℕ) (hpid : pid ≠ 0)
    (hprod : ∃ p ∈ db.products, p.id = pid)
    (href : ∃ si ∈ db.saleItems, si.productId = pid) :
    delete_product db pid = (.error (.databaseError referencedElsewhereMsg), db) := by
  unfold delete_product
  rw [if_neg hpid, if_pos ⟨hprod, href⟩]
  rfl

/-- Witness for C6: product 1 of `dbWithSaleItem` is referenced by a
SaleItem, so deleting it fails and the store is unchanged. -/
theorem delete_product_referenced_fails_witness :
    delete_product dbWithSaleItem 1 =
      (.error (.databaseError referencedElsewhereMsg), dbWithSaleItem) :=
  delete_product_referenced_fails dbWithSaleItem 1 (by decide)
    (by simp [dbWithSaleItem, freshDB]) (by simp [dbWithSaleItem, freshDB])

/-- Claim C7: `validate_phone` accepts `None`, empty and whitespace-only
input; otherwise it accepts exactly the strings that, once spaces, hyphens
and parentheses are removed, consist of an optional leading plus sign
followed by 8 to 15 digits; in particular "123-456-7890" is accepted and
"abc" is rejected with a `ValidationError`. -/
theorem validate_phone_characterization :
    (∀ p : String, validate_phone (some p) = .ok (some p) ↔
      (pyBlank p = true ∨ specPhoneOk (cleanPhone p))) ∧
    validate_phone none = .ok none ∧
    validate_phone (some "123-456-7890") = .ok (some "123-456-7890") ∧
    validate_phone (some "abc") =
      .error (.validationError "Format de numero de telephone invalide.") := by
  refine ⟨?_, rfl, rfl, rfl⟩
  intro p
  simp only [validate_phone]
  rw [pyFalsyOrBlank_eq]
  by_cases hb : pyBlank p = true
  · rw [if_pos hb]
    simp [hb]
  · rw [if_neg hb]
    by_cases hm : phonePatternOk (cleanPhone p) = true
    · rw [if_pos hm]
      constructor
      · intro _
        exact Or.inr ((phonePatternOk_iff _).mp hm)
      · intro _
        rfl
    · rw [if_neg hm]
      constructor
      · intro hcon
        exact (Except.noConfusion hcon)
      · rintro (hb2 | hs)
        · exact absurd hb2 hb
        · exact absurd ((phonePatternOk_iff _).mpr hs) hm

/-- Claim C8: a successful `update_product` changes only the name,
description, category, purchase price and selling price of the addressed
product; in particular the `quantity_in_stock` of every product (and every
other table) is exactly as before the call. -/
theorem update_product_preserves_stock
    {db : DB} {pid : ℕ} {name : String} {descr cat : Option String}
    {pp sp : ℚ} {db2 : DB}
    (h : update_product db pid name descr cat pp sp = (.ok true, db2)) :
    db2 = { db with products := db.products.map (fun p =>
        if p.id = pid then
          { p with name := name, description := descr, category := cat,
                   purchasePrice := pp, sellingPrice := sp }
        else p) } ∧
    (∀ x, stockOf db2 x = stockOf db x) := by
  unfold update_product at h
  split_ifs at h with h1
  · simp at h
  · split at h
    · simp at h
    · rename_i n pp2 sp2 q4 heq
      rw [validate_product_data_none_eq] at heq
      split_ifs at heq with hA hB hC
      injection heq with heq
      simp only [Prod.mk.injEq] at heq
      obtain ⟨hn, hp2, hs2, -⟩ := heq
      subst hn
      subst hp2
      subst hs2
      unfold update_product_apply at h
      split_ifs at h
      all_goals try simp at h
      subst h
      refine ⟨rfl, ?_⟩
      intro x
      exact stockOfList_map_same db.products _
        (fun p => by by_cases hc : p.id = pid <;> simp [hc])
        (fun p => by by_cases hc : p.id = pid <;> simp [hc]) x

/-- Witness for C8: a concrete successful `update_product` on `dbStock10`
rewrites the listed fields and leaves stock 10 untouched. -/
theorem update_product_preserves_stock_witness :
    dbAfterUpdate = { dbStock10 with products := dbStock10.products.map (fun p =>
        if p.id = 1 then
          { p with name := "Gadget", description := none, category := some "Cat2",
                   purchasePrice := 4, sellingPrice := 9 }
        else p) } ∧
    (∀ x, stockOf dbAfterUpdate x = stockOf dbStock10 x) :=
  update_product_preserves_stock (by
    have hg : pyFalsyOrBlank "Gadget" = false := rfl
    have hc2 : pyFalsyOrBlank "Cat2" = false := rfl
    have h1 : (update_product dbStock10 1 "Gadget" none (some "Cat2") 4 9).1 =
        .ok true := by
      norm_num [update_product, validate_product_data_none_eq, update_product_apply,
        optBlank, hg, hc2, dbStock10, freshDB]
    rw [← @Prod.mk.eta _ _ (update_product dbStock10 1 "Gadget" none (some "Cat2") 4 9),
      h1]
    rfl)

/-- Claim C9 (code bug): `get_product_details_for_sale` catches a SQLite
error raised by its SELECT and returns `None` without ever reaching its
`conn.close()` line, so on that path the connection it acquired is not
released; on the non-error path it is released, and
`dangerously_delete_all_data` releases its connection on every path. -/
theorem get_product_details_connection_leak :
    get_product_details_for_sale freshDB 1 true = (none, false) ∧
    (∀ (db : DB) (pid : ℕ), (get_product_details_for_sale db pid false).2 = true) ∧
    (∀ (db : DB) (b : Bool), (dangerously_delete_all_data db b).2 = true) := by
  refine ⟨rfl, ?_, ?_⟩
  · intro db pid
    unfold get_product_details_for_sale
    rw [if_neg (by simp)]
    cases hf : db.products.find? (fun p => p.id == pid) <;> simp
  · intro db b
    cases b <;> rfl

/-- Counterexample to C10 as stated: the id 0 matches no row (ids are
AUTOINCREMENT, starting at 1), yet `delete_customer 0` does not return
`False`: `validate_required` treats 0 as missing and raises a
`ValidationError`. -/
theorem delete_customer_zero_id_raises :
    (∀ c ∈ freshDB.customers, c.id ≠ 0) ∧
    delete_customer freshDB 0 =
      (.error (.validationError "Customer ID est requis."), freshDB) :=
  ⟨by simp [freshDB], rfl⟩

/-- Claim C10 amended: for every nonzero id that matches no existing row
(id 0 or a missing id raises a `ValidationError` first), `delete_customer`
and `delete_product` return `False` without raising and leave the store
unchanged, while `update_customer` and `update_product` (with otherwise
valid arguments) raise a `DatabaseError`; in no case does a not-found
delete or update modify any row. -/
theorem notfound_delete_false_update_raises
    (db : DB) (i : ℕ) (hi : i ≠ 0)
    (hc : ∀ c ∈ db.customers, c.id ≠ i) (hp : ∀ p ∈ db.products, p.id ≠ i)
    (cname : String) (phone email address : Option String)
    (hv : validate_customer_data cname phone email = .ok (cname, phone, email))
    (pname : String) (descr cat : Option String) (pp sp : ℚ)
    (hvp : validate_product_data pname pp sp none = .ok (pname, pp, sp, none))
    (hcat : optBlank cat = false) :
    delete_customer db i = (.ok false, db) ∧
    delete_product db i = (.ok false, db) ∧
    (∃ m, update_customer db i cname phone email address =
      (.error (.databaseError m), db)) ∧
    (∃ m, update_product db i pname descr cat pp sp =
      (.error (.databaseError m), db)) := by
  have hcex : ¬ ∃ c ∈ db.customers, c.id = i := by
    rintro ⟨c, hcm, hceq⟩
    exact hc c hcm hceq
  have hpex : ¬ ∃ p ∈ db.products, p.id = i := by
    rintro ⟨p, hpm, hpeq⟩
    exact hp p hpm hpeq
  refine ⟨?_, ?_, ?_, ?_⟩
  · unfold delete_customer
    rw [if_neg hi, if_pos hcex]
  · unfold delete_product
    rw [if_neg hi, if_neg (fun hand => hpex hand.1), if_pos hpex]
  · refine ⟨"Customer with ID " ++ toString i ++ " not found for update.", ?_⟩
    unfold update_customer
    rw [if_neg hi, hv]
    show update_customer_apply db i cname phone email address = _
    unfold update_customer_apply
    rw [if_neg (fun hand => hcex hand.1), if_pos hcex]
  · refine ⟨"Product with ID " ++ toString i ++ " not found for update.", ?_⟩
    unfold update_product
    rw [if_neg hi, hvp]
    show update_product_apply db i pname descr cat pp sp = _
    unfold update_product_apply
    have hcheck : ∀ p ∈ db.products, p.id = i → 0 ≤ pp ∧ 0 ≤ sp :=
      fun p hpm hpi => absurd hpi (hp p hpm)
    rw [if_neg (by simp [hcat]), if_neg (fun hand => hpex hand.1),
      if_neg (not_not_intro hcheck), if_pos hpex]

/-- Witness for C10 amended: on `dbCust` (customer 1, product 1) with the
unused id 2, the deletes return `False` with the store unchanged and the
updates raise `DatabaseError`. -/
theorem notfound_delete_false_update_raises_witness :
    delete_customer dbCust 2 = (.ok false, dbCust) ∧
    delete_product dbCust 2 = (.ok false, dbCust) ∧
    (∃ m, update_customer dbCust 2 "Bob" none none none =
      (.error (.databaseError m), dbCust)) ∧
    (∃ m, update_product dbCust 2 "Widget2" none (some "Cat") 4 9 =
      (.error (.databaseError m), dbCust)) :=
  notfound_delete_false_update_raises dbCust 2 (by decide)
    (by simp [dbCust, freshDB]) (by simp [dbCust, freshDB])
    "Bob" none none none rfl
    "Widget2" none (some "Cat") 4 9 rfl rfl
